import Mathlib

/-!
Verification of the customer-management MCP server: a shallow embedding of
`database.py` (the record store over the SQLite customers table) and
`app.py` (the protocol gateway), with theorems settling the specified
properties of both layers.
-/

namespace SimpleMcp

/-- Scalar values as they flow through the gateway into SQLite storage:
Python `None` / SQL NULL, integers, and strings.  These are the value
shapes the protocol exercises. -/
inductive Val where
  | none : Val
  | int : Int → Val
  | str : String → Val
deriving DecidableEq

/-- ASCII whitespace, as stripped by Python `str.strip()` on the data this
repository handles. -/
def isPyWS (c : Char) : Bool :=
  c = ' ' || c = '\t' || c = '\n' || c = '\r'

/-- Model of Python `str.strip()`: drop leading and trailing whitespace. -/
def pyStrip (s : String) : String :=
  String.mk (((s.data.dropWhile isPyWS).reverse.dropWhile isPyWS).reverse)

/-- Accumulate a decimal numeral; fails on any non-digit character. -/
def digitsVal : List Char → Nat → Option Nat
  | [], acc => some acc
  | c :: rest, acc =>
      if c.isDigit then digitsVal rest (acc * 10 + (c.toNat - 48)) else Option.none

/-- Does the text parse in full as a decimal integer?  (SQLite applies
numeric affinity to a text operand compared against an INTEGER column
exactly when the text is a pure numeral.) -/
def strToInt? (s : String) : Option Int :=
  match s.data with
  | [] => Option.none
  | '-' :: rest =>
      if rest = [] then Option.none
      else (digitsVal rest 0).map (fun n => -(n : Int))
  | cs => (digitsVal cs 0).map (fun n => (n : Int))

/-- SQLite evaluation of `id = ?` on the INTEGER primary-key column: an
integer parameter compares by value; a text parameter is converted by
numeric affinity when it is a pure numeral and otherwise never equals an
INTEGER; NULL equals nothing. -/
def valMatchesId (v : Val) (id : Nat) : Bool :=
  match v with
  | .int n => n == (id : Int)
  | .str s =>
      match strToInt? s with
      | some n => n == (id : Int)
      | Option.none => false
  | .none => false

/-- Python `str(...)` of a value, used in the store's message strings. -/
def valToString : Val → String
  | .none => "None"
  | .int n => toString n
  | .str s => s

/-- Binary (codepoint-wise) comparison of text, the order SQLite's BINARY
collation puts TEXT values in. -/
def charListLe : List Char → List Char → Bool
  | [], _ => true
  | _ :: _, [] => false
  | a :: as, b :: bs =>
      if a < b then true
      else if b < a then false
      else charListLe as bs

/-- SQLite ORDER BY comparison of stored values: NULL before numbers
before text; numbers by value, text in binary (codepoint) order. -/
def valLe (a b : Val) : Bool :=
  match a, b with
  | .none, _ => true
  | .int _, .none => false
  | .int m, .int n => decide (m ≤ n)
  | .int _, .str _ => true
  | .str _, .none => false
  | .str _, .int _ => false
  | .str s, .str t => charListLe s.data t.data

/-- A row of the customers table.  `name`, `email` and `phone` hold
whatever value the caller supplied (SQLite is dynamically typed); `status`
and the timestamps are always written by the store itself. -/
structure Customer where
  id : Nat
  name : Val
  email : Val
  phone : Val
  status : String
  created_at : Nat
  updated_at : Nat
deriving DecidableEq

/-- The `{'success': ...}` dictionaries every DatabaseManager method
returns: a customer payload (with its optional human message), a list
payload (with its count), or a `success: False` error payload. -/
inductive StoreResult where
  | okCustomer : Option String → Customer → StoreResult
  | okList : Nat → List Customer → StoreResult
  | err : String → StoreResult
deriving DecidableEq

/-- The `success` field of a store result. -/
def StoreResult.success : StoreResult → Bool
  | .err _ => false
  | _ => true

/-- The `customer` field of a store result, when present. -/
def StoreResult.customer? : StoreResult → Option Customer
  | .okCustomer _ c => some c
  | _ => Option.none

/-- The `customers` field of a list result (empty otherwise). -/
def StoreResult.rows : StoreResult → List Customer
  | .okList _ cs => cs
  | _ => []

/-- The customers table plus the autoincrement counter and a logical
clock standing for CURRENT_TIMESTAMP; every committed write stamps the
current instant and strictly advances the clock, so successive writes see
nondecreasing timestamps. -/
structure DB where
  customers : List Customer
  nextId : Nat
  clock : Nat
deriving DecidableEq

/-- Row order used by `ORDER BY name`. -/
def nameLe (a b : Customer) : Prop := valLe a.name b.name = true

instance : DecidableRel nameLe :=
  fun a b => inferInstanceAs (Decidable (valLe a.name b.name = true))

theorem charListLe_total : ∀ as bs : List Char, charListLe as bs = true ∨ charListLe bs as = true
  | [], _ => Or.inl rfl
  | _ :: _, [] => Or.inr rfl
  | a :: as, b :: bs => by
      rcases lt_trichotomy a b with h | h | h
      · left
        simp [charListLe, h]
      · subst h
        rcases charListLe_total as bs with ih | ih
        · left
          simp [charListLe, lt_irrefl, ih]
        · right
          simp [charListLe, lt_irrefl, ih]
      · right
        simp [charListLe, h]

theorem charListLe_trans : ∀ {as bs cs : List Char},
    charListLe as bs = true → charListLe bs cs = true → charListLe as cs = true
  | [], _, _, _, _ => rfl
  | _ :: _, [], _, h₁, _ => by cases h₁
  | _ :: _, _ :: _, [], _, h₂ => by cases h₂
  | a :: as, b :: bs, c :: cs, h₁, h₂ => by
      simp only [charListLe] at h₁ h₂ ⊢
      by_cases hab : a < b
      · by_cases hbc : b < c
        · simp [lt_trans hab hbc]
        · by_cases hcb : c < b
          · rw [if_neg hbc, if_pos hcb] at h₂
            cases h₂
          · have hbc' : b = c := le_antisymm (not_lt.mp hcb) (not_lt.mp hbc)
            subst hbc'
            simp [hab]
      · by_cases hba : b < a
        · rw [if_neg hab, if_pos hba] at h₁
          cases h₁
        · have hab' : a = b := le_antisymm (not_lt.mp hba) (not_lt.mp hab)
          subst hab'
          rw [if_neg hab, if_neg hba] at h₁
          by_cases hac : a < c
          · simp [hac]
          · by_cases hca : c < a
            · rw [if_neg hac, if_pos hca] at h₂
              cases h₂
            · rw [if_neg hac, if_neg hca] at h₂ ⊢
              exact charListLe_trans h₁ h₂

theorem valLe_total (a b : Val) : valLe a b = true ∨ valLe b a = true := by
  cases a <;> cases b <;> simp [valLe] <;> first | omega | exact charListLe_total _ _

theorem valLe_trans {a b c : Val} (h₁ : valLe a b = true) (h₂ : valLe b c = true) :
    valLe a c = true := by
  cases a <;> cases b <;> cases c <;> simp_all [valLe] <;>
    first | omega | exact charListLe_trans h₁ h₂

instance : IsTotal Customer nameLe := ⟨fun a b => valLe_total a.name b.name⟩

instance : IsTrans Customer nameLe := ⟨fun _ _ _ h₁ h₂ => valLe_trans h₁ h₂⟩

/-- `ORDER BY name` ascending, realised as an insertion sort. -/
def sortByName (l : List Customer) : List Customer := List.insertionSort nameLe l

/-- `DatabaseManager.get_customer`: SELECT by id; a found row becomes a
success payload, no row a not-found failure.  Read-only: the state is
returned unchanged. -/
def get_customer (db : DB) (customer_id : Val) : StoreResult × DB :=
  match db.customers.find? (fun c => valMatchesId customer_id c.id) with
  | some c => (.okCustomer Option.none c, db)
  | Option.none =>
      (.err ("Customer with ID " ++ valToString customer_id ++ " not found"), db)

/-- `DatabaseManager.list_customers`.  Python `if status:` is a truthiness
test, so None, the empty string and the integer 0 all take the unfiltered
branch; a truthy status outside the two enumerated strings is rejected
before any query runs. -/
def list_customers (db : DB) (status : Val) : StoreResult × DB :=
  match status with
  | .none =>
      let cs := sortByName db.customers
      (.okList cs.length cs, db)
  | .str s =>
      if s = "" then
        let cs := sortByName db.customers
        (.okList cs.length cs, db)
      else if s = "active" ∨ s = "disabled" then
        let cs := sortByName (db.customers.filter (fun c => c.status == s))
        (.okList cs.length cs, db)
      else
        (.err "Status must be \"active\" or \"disabled\"", db)
  | .int n =>
      if n = 0 then
        let cs := sortByName db.customers
        (.okList cs.length cs, db)
      else
        (.err "Status must be \"active\" or \"disabled\"", db)

/-- `DatabaseManager.add_customer`.  `if not name or not name.strip()` is a
truthiness test: None, 0 and whitespace-only strings fail validation, and a
truthy non-string reaches `name.strip()` whose AttributeError the method's
own except-clause turns into a Database-error failure.  On success the
stripped name is inserted with status 'active', both timestamps stamped by
the same CURRENT_TIMESTAMP, and the row re-fetched by its new rowid. -/
def add_customer (db : DB) (name email phone : Val) : StoreResult × DB :=
  match name with
  | .none => (.err "Customer name is required", db)
  | .int n =>
      if n = 0 then (.err "Customer name is required", db)
      else (.err "Database error: AttributeError", db)
  | .str s =>
      if pyStrip s = "" then (.err "Customer name is required", db)
      else
        let c : Customer :=
          { id := db.nextId, name := .str (pyStrip s), email := email, phone := phone,
            status := "active", created_at := db.clock, updated_at := db.clock }
        let cs := db.customers ++ [c]
        let db' : DB := { customers := cs, nextId := db.nextId + 1, clock := db.clock + 1 }
        match cs.find? (fun x => valMatchesId (.int (db.nextId : Int)) x.id) with
        | some c' =>
            (.okCustomer (some ("Customer created with ID " ++ toString db.nextId)) c', db')
        | Option.none => (.err "Database error: row missing", db')

/-- Python's building of the update parameter list for the name field: a
non-string name raises AttributeError at `name.strip()` (caught as a
Database error); a string contributes its stripped text; None is skipped. -/
def stripName : Val → Except String Val
  | .none => .ok .none
  | .str s => .ok (.str (pyStrip s))
  | .int _ => .error "Database error: AttributeError"

/-- SQL `UPDATE ... WHERE id = ?`: rewrite every row the parameter
matches. -/
def updateWhere (l : List Customer) (v : Val) (f : Customer → Customer) : List Customer :=
  l.map (fun c => if valMatchesId v c.id then f c else c)

/-- `DatabaseManager.update_customer`: existence check, dynamic update list
(an absent argument and an explicit None are indistinguishable and both
skipped), `updated_at = CURRENT_TIMESTAMP` always appended, row
re-fetched. -/
def update_customer (db : DB) (customer_id name email phone : Val) : StoreResult × DB :=
  match db.customers.find? (fun c => valMatchesId customer_id c.id) with
  | Option.none =>
      (.err ("Customer with ID " ++ valToString customer_id ++ " not found"), db)
  | some _ =>
      match stripName name with
      | .error e => (.err e, db)
      | .ok name' =>
          if name = .none ∧ email = .none ∧ phone = .none then
            (.err "No fields to update", db)
          else
            let f : Customer → Customer := fun c =>
              { c with
                name := if name = .none then c.name else name',
                email := if email = .none then c.email else email,
                phone := if phone = .none then c.phone else phone,
                updated_at := db.clock }
            let cs := updateWhere db.customers customer_id f
            let db' : DB := { db with customers := cs, clock := db.clock + 1 }
            match cs.find? (fun c => valMatchesId customer_id c.id) with
            | some c' =>
                (.okCustomer
                  (some ("Customer " ++ valToString customer_id ++ " updated successfully"))
                  c', db')
            | Option.none => (.err "Database error: row missing", db')

/-- `DatabaseManager.disable_customer`: existence check, then
`SET status='disabled', updated_at=CURRENT_TIMESTAMP` unconditionally,
then re-fetch. -/
def disable_customer (db : DB) (customer_id : Val) : StoreResult × DB :=
  match db.customers.find? (fun c => valMatchesId customer_id c.id) with
  | Option.none =>
      (.err ("Customer with ID " ++ valToString customer_id ++ " not found"), db)
  | some _ =>
      let cs := updateWhere db.customers customer_id
        (fun c => { c with status := "disabled", updated_at := db.clock })
      let db' : DB := { db with customers := cs, clock := db.clock + 1 }
      match cs.find? (fun c => valMatchesId customer_id c.id) with
      | some c' =>
          (.okCustomer
            (some ("Customer " ++ valToString customer_id ++ " has been disabled")) c', db')
      | Option.none => (.err "Database error: row missing", db')

/-- `DatabaseManager.activate_customer`: the same shape as disable with
target status 'active'. -/
def activate_customer (db : DB) (customer_id : Val) : StoreResult × DB :=
  match db.customers.find? (fun c => valMatchesId customer_id c.id) with
  | Option.none =>
      (.err ("Customer with ID " ++ valToString customer_id ++ " not found"), db)
  | some _ =>
      let cs := updateWhere db.customers customer_id
        (fun c => { c with status := "active", updated_at := db.clock })
      let db' : DB := { db with customers := cs, clock := db.clock + 1 }
      match cs.find? (fun c => valMatchesId customer_id c.id) with
      | some c' =>
          (.okCustomer
            (some ("Customer " ++ valToString customer_id ++ " has been activated")) c', db')
      | Option.none => (.err "Database error: row missing", db')

/-- One of the seeded sample rows. -/
def sampleRow (id : Nat) (name email phone status : String) : Customer :=
  { id := id, name := .str name, email := .str email, phone := .str phone,
    status := status, created_at := 0, updated_at := 0 }

/-- The state `init_database` produces on empty storage: the ten sample
rows (ids 1..10, the seeding insert's single CURRENT_TIMESTAMP taken as
instant 0), autoincrement counter at 11, clock past the seed write. -/
def initialDB : DB :=
  { customers :=
      [ sampleRow 1 "Alice Johnson" "alice.johnson@email.com" "+1-555-0101" "active",
        sampleRow 2 "Bob Smith" "bob.smith@email.com" "+1-555-0102" "active",
        sampleRow 3 "Carol White" "carol.white@email.com" "+1-555-0103" "active",
        sampleRow 4 "David Brown" "david.brown@email.com" "+1-555-0104" "disabled",
        sampleRow 5 "Eve Davis" "eve.davis@email.com" "+1-555-0105" "active",
        sampleRow 6 "Frank Miller" "frank.miller@email.com" "+1-555-0106" "active",
        sampleRow 7 "Grace Wilson" "grace.wilson@email.com" "+1-555-0107" "active",
        sampleRow 8 "Henry Moore" "henry.moore@email.com" "+1-555-0108" "disabled",
        sampleRow 9 "Iris Taylor" "iris.taylor@email.com" "+1-555-0109" "active",
        sampleRow 10 "Jack Anderson" "jack.anderson@email.com" "+1-555-0110" "active" ],
    nextId := 11, clock := 1 }

/-- Reachable-state invariants maintained by the schema and operations:
ids unique and below the autoincrement counter, timestamps ordered and
strictly behind the clock, status one of the two enumerated values. -/
def WF (db : DB) : Prop :=
  (db.customers.map (fun c => c.id)).Nodup ∧
  ∀ c ∈ db.customers,
    c.id < db.nextId ∧ c.created_at ≤ c.updated_at ∧ c.updated_at < db.clock ∧
    (c.status = "active" ∨ c.status = "disabled")

instance decidableWF (db : DB) : Decidable (WF db) := by
  unfold WF
  infer_instance

/-! ### The protocol gateway (`app.py`) -/

/-- An arguments mapping as supplied in `params.arguments`. -/
abbrev Args := List (String × Val)

/-- The six registry names, the keys of app.py's tool_functions. -/
def toolNames : List String :=
  ["get_customer", "list_customers", "add_customer",
   "update_customer", "disable_customer", "activate_customer"]

/-- Keyword parameters of the Python method bound to a tool: those
without a default (required) and those defaulting to None (optional). -/
structure ToolSig where
  required : List String
  optional : List String

/-- The parameter signatures of the six bound DatabaseManager methods. -/
def toolSig : String → ToolSig
  | "list_customers" => ⟨[], ["status"]⟩
  | "add_customer" => ⟨["name"], ["email", "phone"]⟩
  | "update_customer" => ⟨["customer_id"], ["name", "email", "phone"]⟩
  | _ => ⟨["customer_id"], []⟩

/-- Python keyword-argument binding `f(**arguments)`: TypeError is raised
exactly when a required parameter is missing or an unexpected keyword is
supplied — no type checking happens at the call boundary. -/
def bindOk (sig : ToolSig) (args : Args) : Bool :=
  sig.required.all (fun r => (args.lookup r).isSome) &&
  args.all (fun kv => sig.required.contains kv.1 || sig.optional.contains kv.1)

/-- The value a bound parameter receives: the supplied argument, or the
None default when absent. -/
def argVal (args : Args) (k : String) : Val :=
  (args.lookup k).getD Val.none

/-- The fields of an inbound MCP request the gateway reads: the
correlation id from message.get("id"), the method, and for tool calls
params.get("name") and params.get("arguments", default empty). -/
structure Message where
  id : Val
  method : String
  toolName : Val
  arguments : Args

/-- The `result` payloads the gateway produces. -/
inductive Payload where
  | initInfo : Payload
  | toolCatalog : List String → Payload
  | toolOutput : StoreResult → Payload
deriving DecidableEq

/-- A JSON-RPC response envelope: exactly one of result or error, always
carrying the request's correlation id. -/
inductive Response where
  | result : Val → Payload → Response
  | error : Val → Int → String → Response
deriving DecidableEq

/-- `tool_functions[tool_name](**arguments)` once binding has succeeded:
dispatch to the store method, reading each parameter from the arguments
mapping with None as the default. -/
def runTool (db : DB) (name : String) (args : Args) : StoreResult × DB :=
  if name = "get_customer" then get_customer db (argVal args "customer_id")
  else if name = "list_customers" then list_customers db (argVal args "status")
  else if name = "add_customer" then
    add_customer db (argVal args "name") (argVal args "email") (argVal args "phone")
  else if name = "update_customer" then
    update_customer db (argVal args "customer_id") (argVal args "name")
      (argVal args "email") (argVal args "phone")
  else if name = "disable_customer" then disable_customer db (argVal args "customer_id")
  else activate_customer db (argVal args "customer_id")

/-- `handle_tools_call`: a name outside the registry (including a
non-string or missing one) yields -32601; a TypeError from argument
binding yields -32602; otherwise the store outcome — success or domain
failure alike — is wrapped into a success envelope. -/
def handle_tools_call (db : DB) (m : Message) : Response × DB :=
  match m.toolName with
  | .str name =>
      if name ∈ toolNames then
        if bindOk (toolSig name) m.arguments then
          let rd := runTool db name m.arguments
          (.result m.id (.toolOutput rd.1), rd.2)
        else
          (.error m.id (-32602) "Invalid arguments", db)
      else (.error m.id (-32601) ("Tool not found: " ++ name), db)
  | v => (.error m.id (-32601) ("Tool not found: " ++ valToString v), db)

/-- `process_mcp_message`: route the three known methods; anything else
is Method-Not-Found -32601 under the request's correlation id. -/
def process_mcp_message (db : DB) (m : Message) : Response × DB :=
  if m.method = "initialize" then (.result m.id .initInfo, db)
  else if m.method = "tools/list" then (.result m.id (.toolCatalog toolNames), db)
  else if m.method = "tools/call" then handle_tools_call db m
  else (.error m.id (-32601) ("Method not found: " ++ m.method), db)

/-- A tools/call request with the given id, tool name and arguments. -/
def mkCall (id : Val) (tool : String) (args : Args) : Message :=
  { id := id, method := "tools/call", toolName := .str tool, arguments := args }

/-- An optional caller-supplied string field, as the value it reaches the
store as. -/
def optV : Option String → Val
  | Option.none => .none
  | some s => .str s

/-! ### Helper lemmas -/

theorem find?_append_none {α : Type} (p : α → Bool) {l₁ : List α} (l₂ : List α)
    (h : l₁.find? p = Option.none) : (l₁ ++ l₂).find? p = l₂.find? p := by
  induction l₁ with
  | nil => simp
  | cons a t ih =>
      by_cases ha : p a
      · rw [List.find?_cons_of_pos _ ha] at h
        cases h
      · rw [List.cons_append, List.find?_cons_of_neg _ ha]
        rw [List.find?_cons_of_neg _ ha] at h
        exact ih h

/-- With unique ids, the SELECT-by-id of a present record returns exactly
that record. -/
theorem find?_id_of_mem {l : List Customer} (hnd : (l.map (fun c => c.id)).Nodup)
    {c : Customer} (hc : c ∈ l) :
    l.find? (fun x => valMatchesId (.int (c.id : Int)) x.id) = some c := by
  induction l with
  | nil => cases hc
  | cons a t ih =>
      simp only [List.map_cons, List.nodup_cons] at hnd
      rcases List.mem_cons.mp hc with rfl | hct
      · have hpa : valMatchesId (Val.int (c.id : Int)) c.id = true := by
          simp [valMatchesId]
        simp only [List.find?_cons, hpa]
      · have hne : a.id ≠ c.id := by
          intro h
          exact hnd.1 (h ▸ List.mem_map_of_mem (fun c => c.id) hct)
        have hpa : valMatchesId (Val.int (c.id : Int)) a.id = false := by
          simp only [valMatchesId, beq_eq_false_iff_ne, ne_eq]
          intro h
          exact hne (by omega)
        simp only [List.find?_cons, hpa]
        exact ih hnd.2 hct

/-- Re-fetching after an UPDATE ... WHERE id = ? finds the rewritten row. -/
theorem find?_updateWhere {l : List Customer} {v : Val} {c : Customer}
    (h : l.find? (fun x => valMatchesId v x.id) = some c)
    (f : Customer → Customer) (hf : ∀ x, (f x).id = x.id) :
    (updateWhere l v f).find? (fun x => valMatchesId v x.id) = some (f c) := by
  induction l with
  | nil => cases h
  | cons a t ih =>
      rcases ha : valMatchesId v a.id with _ | _
      · simp only [List.find?_cons, ha] at h
        simp only [updateWhere, List.map_cons, ha, Bool.false_eq_true, if_false]
        have hfa : valMatchesId v a.id = false := ha
        simp only [List.find?_cons, hfa]
        exact ih h
      · simp only [List.find?_cons, ha] at h
        cases h
        simp only [updateWhere, List.map_cons, ha, if_true]
        have hfa : valMatchesId v (f c).id = true := by rw [hf c]; exact ha
        simp only [List.find?_cons, hfa]

/-- Rows an UPDATE's WHERE clause does not match survive unchanged. -/
theorem mem_updateWhere_of_not_match {l : List Customer} {v : Val} {x : Customer}
    (hx : x ∈ l) (hm : valMatchesId v x.id = false) (f : Customer → Customer) :
    x ∈ updateWhere l v f := by
  induction hx with
  | head t =>
      simp only [updateWhere, List.map_cons, hm, Bool.false_eq_true, if_false]
      exact List.mem_cons_self _ _
  | tail b hxt ih =>
      simp only [updateWhere, List.map_cons] at ih ⊢
      exact List.mem_cons_of_mem _ ih

/-- Routing of a well-formed tools/call whose arguments bind: the store is
invoked and its outcome wrapped into a success envelope. -/
theorem process_call (db : DB) (idv : Val) (tool : String) (args : Args)
    (hreg : tool ∈ toolNames) (hbind : bindOk (toolSig tool) args = true) :
    process_mcp_message db (mkCall idv tool args)
      = (.result idv (.toolOutput (runTool db tool args).1), (runTool db tool args).2) := by
  simp [process_mcp_message, mkCall, handle_tools_call, hreg, hbind]

/-! ### Claim theorems -/

/-- C10: get_customer and list_customers are pure reads — for every state
and every argument value they return the record collection exactly
unchanged (no record added, removed or modified, no timestamp refreshed,
no counter advanced). -/
theorem C10_reads_pure (db : DB) (v : Val) :
    (get_customer db v).2 = db ∧ (list_customers db v).2 = db := by
  constructor
  · unfold get_customer
    cases db.customers.find? (fun c => valMatchesId v c.id) <;> rfl
  · unfold list_customers
    cases v with
    | none => rfl
    | int n => by_cases h : n = 0 <;> simp [h]
    | str s =>
        by_cases h1 : s = ""
        · simp [h1]
        · by_cases h2 : s = "active" ∨ s = "disabled" <;> simp [h1, h2]

/-- C6: a tools/call whose operation name is not one of the six registered
names, and any request whose method is none of initialize, tools/list and
tools/call, each yield a protocol error envelope with code -32601 carrying
the request's correlation id. -/
theorem C6_unknown_tool_or_method (db : DB) (m : Message) :
    (m.method = "tools/call" → (∀ s, m.toolName = .str s → s ∉ toolNames) →
      ∃ msg, (process_mcp_message db m).1 = .error m.id (-32601) msg) ∧
    (m.method ≠ "initialize" → m.method ≠ "tools/list" → m.method ≠ "tools/call" →
      ∃ msg, (process_mcp_message db m).1 = .error m.id (-32601) msg) := by
  constructor
  · intro hm hname
    unfold process_mcp_message
    rw [hm, if_neg (by decide), if_neg (by decide), if_pos rfl]
    unfold handle_tools_call
    cases htn : m.toolName with
    | str s =>
        dsimp only
        rw [if_neg (hname s htn)]
        exact ⟨_, rfl⟩
    | none => exact ⟨_, rfl⟩
    | int n => exact ⟨_, rfl⟩
  · intro h1 h2 h3
    unfold process_mcp_message
    rw [if_neg h1, if_neg h2, if_neg h3]
    exact ⟨_, rfl⟩

/-- C6 witness: the spec's own test — a tools/call naming delete_customer
gets a -32601 error envelope under the request's id. -/
theorem C6_unknown_tool_or_method_witness :
    ∃ msg, (process_mcp_message initialDB (mkCall (.int 1) "delete_customer" [])).1
      = .error (.int 1) (-32601) msg := by
  refine (C6_unknown_tool_or_method initialDB (mkCall (.int 1) "delete_customer" [])).1 rfl ?_
  intro s hs
  have h : s = "delete_customer" := by
    have := hs.symm
    injection this
  rw [h]
  decide

/-- C1 counterexample: get_customer is a registered operation and the
supplied customer_id has the wrong type for its integer parameter (a
non-numeric string), yet the gateway returns a success envelope carrying
the store's domain not-found failure — not the claimed invalid-arguments
protocol error -32602.  Python's keyword binding raises no TypeError for a
wrong-typed value, so the argument flows into the store. -/
theorem C1_wrong_type_not_invalid_arguments :
    (process_mcp_message initialDB
        (mkCall (.int 7) "get_customer" [("customer_id", .str "abc")])).1
      = .result (.int 7)
          (.toolOutput (.err "Customer with ID abc not found")) := by
  decide

/-- C1 amended: a tools/call naming a registered operation whose arguments
fail Python's call binding — a missing required parameter or an unexpected
extra parameter — yields the invalid-arguments protocol error -32602: an
error envelope, distinct by constructor from every success envelope that
carries a domain success:false payload, with a code distinct from the
tool-not-found code -32601.  (A wrong-typed argument of the right shape is
not rejected by the gateway; see the counterexample.) -/
theorem C1_invalid_arguments (db : DB) (m : Message) (s : String)
    (hm : m.method = "tools/call") (ht : m.toolName = .str s) (hreg : s ∈ toolNames)
    (hbind : bindOk (toolSig s) m.arguments = false) :
    (process_mcp_message db m).1 = .error m.id (-32602) "Invalid arguments" ∧
    ((-32602 : Int) ≠ -32601) ∧
    (∀ p : Payload, Response.error m.id (-32602) "Invalid arguments" ≠ .result m.id p) := by
  refine ⟨?_, by decide, fun p => by simp⟩
  unfold process_mcp_message
  rw [hm, if_neg (by decide), if_neg (by decide), if_pos rfl]
  unfold handle_tools_call
  rw [ht]
  dsimp only
  simp only [if_pos hreg, hbind, Bool.false_eq_true, if_false]

/-- C1 witness: calling the registered get_customer with its required
customer_id parameter missing yields -32602. -/
theorem C1_invalid_arguments_witness :
    (process_mcp_message initialDB (mkCall (.int 3) "get_customer" [])).1
      = .error (.int 3) (-32602) "Invalid arguments" ∧ ((-32602 : Int) ≠ -32601) :=
  ⟨(C1_invalid_arguments initialDB (mkCall (.int 3) "get_customer" []) "get_customer"
      rfl rfl (by decide) (by decide)).1, by decide⟩

/-- C3 counterexample: the empty string is not one of the two enumerated
status values, yet list_customers returns all ten seeded records
successfully instead of the claimed validation failure — Python's
`if status:` is false for "", so the empty string selects the unfiltered
branch. -/
theorem C3_empty_status_lists_all :
    ((list_customers initialDB (.str "")).1.success = true) ∧
    ((list_customers initialDB (.str "")).1.rows.length = 10) := by
  constructor
  · simp [list_customers, StoreResult.success]
  · decide

/-- C3 amended: a supplied non-empty status outside the two enumerated
values yields a validation failure; a valid status yields exactly the
records carrying that status, ordered by name ascending; no status yields
all records ordered by name ascending.  Deviation from the claim: the
empty string is falsy in Python, so it selects the unfiltered branch
instead of failing validation. -/
theorem C3_list_filtering (db : DB) :
    (∀ s : String, s ≠ "" → s ≠ "active" → s ≠ "disabled" →
      ∃ e, list_customers db (.str s) = (.err e, db)) ∧
    (∀ s : String, s = "active" ∨ s = "disabled" →
      ∃ cs, list_customers db (.str s) = (.okList cs.length cs, db) ∧
        cs.Perm (db.customers.filter (fun c => c.status == s)) ∧
        List.Sorted nameLe cs) ∧
    (∃ cs, list_customers db .none = (.okList cs.length cs, db) ∧
      cs.Perm db.customers ∧ List.Sorted nameLe cs) := by
  refine ⟨?_, ?_, ?_⟩
  · intro s h1 h2 h3
    refine ⟨"Status must be \"active\" or \"disabled\"", ?_⟩
    have h4 : ¬ (s = "active" ∨ s = "disabled") := by
      rintro (rfl | rfl)
      · exact h2 rfl
      · exact h3 rfl
    simp [list_customers, h1, h4]
  · intro s hs
    have h1 : ¬ s = "" := by
      rcases hs with rfl | rfl <;> decide
    refine ⟨sortByName (db.customers.filter (fun c => c.status == s)), ?_, ?_, ?_⟩
    · simp [list_customers, h1, hs]
    · exact List.perm_insertionSort nameLe _
    · exact List.sorted_insertionSort nameLe _
  · exact ⟨sortByName db.customers, rfl, List.perm_insertionSort nameLe _,
      List.sorted_insertionSort nameLe _⟩

/-- C3 witness: on the seeded store, the invalid filter "pending" is
rejected, the "disabled" filter succeeds with the matching rows in name
order, and the unfiltered listing succeeds with all rows in name order. -/
theorem C3_list_filtering_witness :
    (∃ e, list_customers initialDB (.str "pending") = (.err e, initialDB)) ∧
    (∃ cs, list_customers initialDB (.str "disabled") = (.okList cs.length cs, initialDB) ∧
      cs.Perm (initialDB.customers.filter (fun c => c.status == "disabled")) ∧
      List.Sorted nameLe cs) ∧
    (∃ cs, list_customers initialDB .none = (.okList cs.length cs, initialDB) ∧
      cs.Perm initialDB.customers ∧ List.Sorted nameLe cs) :=
  ⟨(C3_list_filtering initialDB).1 "pending" (by decide) (by decide) (by decide),
   (C3_list_filtering initialDB).2.1 "disabled" (Or.inr rfl),
   (C3_list_filtering initialDB).2.2⟩

/-- C8: the records listed under the active filter and those listed under
the disabled filter partition the unfiltered listing — every record of
the unfiltered listing appears in exactly one of the two filtered
results, and nothing else appears in them. -/
theorem C8_filter_exhaustive (db : DB) (hwf : WF db) :
    (∀ c, (c ∈ (list_customers db (.str "active")).1.rows ∨
           c ∈ (list_customers db (.str "disabled")).1.rows) ↔
           c ∈ (list_customers db .none).1.rows) ∧
    (∀ c, ¬ (c ∈ (list_customers db (.str "active")).1.rows ∧
             c ∈ (list_customers db (.str "disabled")).1.rows)) := by
  have hA : (list_customers db (.str "active")).1.rows
      = sortByName (db.customers.filter (fun c => c.status == "active")) := by
    simp [list_customers, StoreResult.rows]
  have hD : (list_customers db (.str "disabled")).1.rows
      = sortByName (db.customers.filter (fun c => c.status == "disabled")) := by
    simp [list_customers, StoreResult.rows]
  have hN : (list_customers db .none).1.rows = sortByName db.customers := by
    simp [list_customers, StoreResult.rows]
  constructor
  · intro c
    rw [hA, hD, hN]
    simp only [sortByName, List.mem_insertionSort, List.mem_filter, beq_iff_eq]
    constructor
    · rintro (⟨h, _⟩ | ⟨h, _⟩) <;> exact h
    · intro hc
      rcases (hwf.2 c hc).2.2.2 with h | h
      · exact Or.inl ⟨hc, h⟩
      · exact Or.inr ⟨hc, h⟩
  · intro c
    rw [hA, hD]
    simp only [sortByName, List.mem_insertionSort, List.mem_filter, beq_iff_eq]
    rintro ⟨⟨_, h1⟩, ⟨_, h2⟩⟩
    rw [h1] at h2
    exact absurd h2 (by decide)

/-- C8 witness: the partition property on the seeded store. -/
theorem C8_filter_exhaustive_witness :
    (∀ c, (c ∈ (list_customers initialDB (.str "active")).1.rows ∨
           c ∈ (list_customers initialDB (.str "disabled")).1.rows) ↔
           c ∈ (list_customers initialDB .none).1.rows) ∧
    (∀ c, ¬ (c ∈ (list_customers initialDB (.str "active")).1.rows ∧
             c ∈ (list_customers initialDB (.str "disabled")).1.rows)) :=
  C8_filter_exhaustive initialDB (by decide)

/-- C2 exhibits a code bug: add_customer validates the name, but
update_customer never does, so updating the seeded record 1 with the
all-whitespace name " " succeeds and stores the stripped — empty — string,
violating the invariant that a record's trimmed name is never empty. -/
theorem C2_blank_update_clears_name :
    ((update_customer initialDB (.int 1) (.str " ") .none .none).1.success = true) ∧
    (((update_customer initialDB (.int 1) (.str " ") .none .none).1.customer?).map
        (fun c => c.name) = some (.str "")) ∧
    (∃ c ∈ (update_customer initialDB (.int 1) (.str " ") .none .none).2.customers,
      c.name = .str "") := by
  refine ⟨by decide, by decide, by decide⟩

/-- C4 counterexample: adding a customer whose non-blank name carries
surrounding whitespace stores the trimmed text, so the record fetched by
the returned id is not equal to the caller-supplied name field. -/
theorem C4_roundtrip_trims_name :
    (((get_customer (add_customer initialDB (.str " Zoe Park ") .none .none).2
        (.int 11)).1.customer?).map (fun c => c.name) = some (.str "Zoe Park")) ∧
    (Val.str "Zoe Park" ≠ Val.str " Zoe Park ") :=
  ⟨by decide, by decide⟩

/-- C4 amended: adding a customer with a non-blank name and any optional
email and phone, then fetching the returned id, yields the stored record:
email and phone exactly as supplied, the name equal to the supplied name
stripped of surrounding whitespace (the one deviation from the claim),
status active, and created_at = updated_at. -/
theorem C4_add_get_roundtrip (db : DB) (hwf : WF db) (s : String)
    (hs : ¬ pyStrip s = "") (email phone : Val) :
    ∃ msg c,
      add_customer db (.str s) email phone
        = (.okCustomer (some msg) c,
           { customers := db.customers ++ [c], nextId := db.nextId + 1,
             clock := db.clock + 1 }) ∧
      (get_customer (add_customer db (.str s) email phone).2 (.int (c.id : Int))).1
        = .okCustomer Option.none c ∧
      c.id = db.nextId ∧
      c.name = .str (pyStrip s) ∧ c.email = email ∧ c.phone = phone ∧
      c.status = "active" ∧ c.created_at = c.updated_at := by
  have hnone : db.customers.find? (fun x => valMatchesId (.int (db.nextId : Int)) x.id)
      = Option.none := by
    rw [List.find?_eq_none]
    intro x hx
    have hlt := (hwf.2 x hx).1
    simp only [valMatchesId, beq_iff_eq]
    intro h
    omega
  have hfind : (db.customers ++
      [({ id := db.nextId, name := .str (pyStrip s), email := email, phone := phone,
          status := "active", created_at := db.clock, updated_at := db.clock } : Customer)]).find?
      (fun x => valMatchesId (.int (db.nextId : Int)) x.id)
      = some ({ id := db.nextId, name := .str (pyStrip s), email := email, phone := phone,
                status := "active", created_at := db.clock, updated_at := db.clock } : Customer) := by
    rw [find?_append_none _ _ hnone]
    simp [valMatchesId]
  have hadd : add_customer db (.str s) email phone
      = (.okCustomer (some ("Customer created with ID " ++ toString db.nextId))
          { id := db.nextId, name := .str (pyStrip s), email := email, phone := phone,
            status := "active", created_at := db.clock, updated_at := db.clock },
         { customers := db.customers ++
             [{ id := db.nextId, name := .str (pyStrip s), email := email, phone := phone,
                status := "active", created_at := db.clock, updated_at := db.clock }],
           nextId := db.nextId + 1, clock := db.clock + 1 }) := by
    simp only [add_customer]
    rw [if_neg hs]
    simp only [hfind]
  refine ⟨_, _, hadd, ?_, rfl, rfl, rfl, rfl, rfl, rfl⟩
  rw [hadd]
  dsimp only [get_customer]
  simp only [hfind]

/-- C4 witness: the round trip at a concrete store and inputs. -/
theorem C4_add_get_roundtrip_witness :
    ∃ msg c,
      add_customer initialDB (.str "Zoe") (.str "zoe@email.com") .none
        = (.okCustomer (some msg) c,
           { customers := initialDB.customers ++ [c], nextId := initialDB.nextId + 1,
             clock := initialDB.clock + 1 }) ∧
      (get_customer (add_customer initialDB (.str "Zoe") (.str "zoe@email.com") .none).2
          (.int (c.id : Int))).1
        = .okCustomer Option.none c ∧
      c.id = initialDB.nextId ∧
      c.name = .str (pyStrip "Zoe") ∧ c.email = .str "zoe@email.com" ∧ c.phone = .none ∧
      c.status = "active" ∧ c.created_at = c.updated_at :=
  C4_add_get_roundtrip initialDB (by decide) "Zoe" (by decide) (.str "zoe@email.com") .none

/-- The successful path of update_customer: with unique ids, a present
record, a name parameter that does not raise at `.strip()`, and at least
one field supplied, the matched row is rewritten and re-fetched. -/
theorem update_customer_spec (db : DB) (hnd : (db.customers.map (fun c => c.id)).Nodup)
    (c : Customer) (hc : c ∈ db.customers) (name email phone : Val) (name' : Val)
    (hstrip : stripName name = .ok name')
    (hsome : ¬ (name = Val.none ∧ email = Val.none ∧ phone = Val.none)) :
    update_customer db (.int (c.id : Int)) name email phone
      = (.okCustomer
          (some ("Customer " ++ valToString (.int (c.id : Int)) ++ " updated successfully"))
          { c with
            name := if name = Val.none then c.name else name',
            email := if email = Val.none then c.email else email,
            phone := if phone = Val.none then c.phone else phone,
            updated_at := db.clock },
         { db with
           customers := updateWhere db.customers (.int (c.id : Int)) (fun x =>
             { x with
               name := if name = Val.none then x.name else name',
               email := if email = Val.none then x.email else email,
               phone := if phone = Val.none then x.phone else phone,
               updated_at := db.clock }),
           clock := db.clock + 1 }) := by
  have hfindc := find?_id_of_mem hnd hc
  have hupd := find?_updateWhere hfindc (fun x =>
      ({ x with
         name := if name = Val.none then x.name else name',
         email := if email = Val.none then x.email else email,
         phone := if phone = Val.none then x.phone else phone,
         updated_at := db.clock } : Customer)) (fun x => rfl)
  simp only [update_customer, hfindc, hstrip]
  rw [if_neg hsome]
  simp only [hupd]

/-- C9 counterexample: a successful update that supplies a name carrying
surrounding whitespace stores the stripped text, so the supplied field
does not literally overwrite the record's attribute. -/
theorem C9_update_trims_name :
    (((update_customer initialDB (.int 2) (.str " Bobby ") .none .none).1.customer?).map
        (fun c => c.name) = some (.str "Bobby")) ∧
    (Val.str "Bobby" ≠ Val.str " Bobby ") :=
  ⟨by decide, by decide⟩

/-- C9 amended: a successful update overwrites exactly the supplied
fields — email and phone with the supplied values, the name with the
supplied text stripped of surrounding whitespace (the one deviation from
the claim) — refreshes updated_at, leaves every unsupplied field and the
id, status and created_at unchanged, and leaves records with other ids
untouched. -/
theorem C9_update_frame (db : DB) (hwf : WF db) (c : Customer) (hc : c ∈ db.customers)
    (name? email? phone? : Option String)
    (hsome : ¬ (name? = Option.none ∧ email? = Option.none ∧ phone? = Option.none)) :
    ∃ msg c',
      (update_customer db (.int (c.id : Int)) (optV name?) (optV email?) (optV phone?)).1
        = .okCustomer (some msg) c' ∧
      c'.id = c.id ∧ c'.status = c.status ∧ c'.created_at = c.created_at ∧
      c'.updated_at = db.clock ∧ c.updated_at < c'.updated_at ∧
      c'.name = (match name? with | Option.none => c.name | some s => .str (pyStrip s)) ∧
      c'.email = (match email? with | Option.none => c.email | some e => .str e) ∧
      c'.phone = (match phone? with | Option.none => c.phone | some p => .str p) ∧
      (∀ d ∈ db.customers, d.id ≠ c.id →
        d ∈ (update_customer db (.int (c.id : Int)) (optV name?) (optV email?)
          (optV phone?)).2.customers) := by
  have hstrip : stripName (optV name?)
      = .ok (match name? with | Option.none => Val.none | some s => .str (pyStrip s)) := by
    cases name? <;> rfl
  have hsome' : ¬ (optV name? = Val.none ∧ optV email? = Val.none ∧ optV phone? = Val.none) := by
    rintro ⟨h1, h2, h3⟩
    apply hsome
    refine ⟨?_, ?_, ?_⟩
    · cases name? with
      | none => rfl
      | some s => simp [optV] at h1
    · cases email? with
      | none => rfl
      | some s => simp [optV] at h2
    · cases phone? with
      | none => rfl
      | some s => simp [optV] at h3
  have hspec := update_customer_spec db hwf.1 c hc (optV name?) (optV email?) (optV phone?)
    _ hstrip hsome'
  rw [hspec]
  refine ⟨_, _, rfl, rfl, rfl, rfl, rfl, (hwf.2 c hc).2.2.1, ?_, ?_, ?_, ?_⟩
  · cases name? <;> simp [optV]
  · cases email? <;> simp [optV]
  · cases phone? <;> simp [optV]
  · intro d hd hne
    apply mem_updateWhere_of_not_match hd ?_ _
    simp only [valMatchesId, beq_eq_false_iff_ne, ne_eq]
    intro h
    exact hne (by omega)

/-- C9 witness: updating record 3 of the seeded store with a new name and
phone, leaving the email unsupplied. -/
theorem C9_update_frame_witness :
    ∃ msg c',
      (update_customer initialDB
          (.int ((sampleRow 3 "Carol White" "carol.white@email.com" "+1-555-0103" "active").id
            : Int))
          (optV (some "Carol Grey")) (optV Option.none) (optV (some "+1-555-9999"))).1
        = .okCustomer (some msg) c' ∧
      c'.id = (sampleRow 3 "Carol White" "carol.white@email.com" "+1-555-0103" "active").id ∧
      c'.status = (sampleRow 3 "Carol White" "carol.white@email.com" "+1-555-0103" "active").status ∧
      c'.created_at
        = (sampleRow 3 "Carol White" "carol.white@email.com" "+1-555-0103" "active").created_at ∧
      c'.updated_at = initialDB.clock ∧
      (sampleRow 3 "Carol White" "carol.white@email.com" "+1-555-0103" "active").updated_at
        < c'.updated_at ∧
      c'.name = .str (pyStrip "Carol Grey") ∧
      c'.email = (sampleRow 3 "Carol White" "carol.white@email.com" "+1-555-0103" "active").email ∧
      c'.phone = .str "+1-555-9999" ∧
      (∀ d ∈ initialDB.customers,
        d.id ≠ (sampleRow 3 "Carol White" "carol.white@email.com" "+1-555-0103" "active").id →
        d ∈ (update_customer initialDB
            (.int ((sampleRow 3 "Carol White" "carol.white@email.com" "+1-555-0103" "active").id
              : Int))
            (optV (some "Carol Grey")) (optV Option.none) (optV (some "+1-555-9999"))).2.customers) :=
  C9_update_frame initialDB (by decide)
    (sampleRow 3 "Carol White" "carol.white@email.com" "+1-555-0103" "active") (by decide)
    (some "Carol Grey") Option.none (some "+1-555-9999") (by simp)

/-- C7: disabling any existing record succeeds and sets its status to
disabled unconditionally — in particular an already-disabled record stays
disabled — and refreshes updated_at to the current clock, which is no
earlier than the record's previous stamp. -/
theorem C7_disable_idempotent (db : DB) (hwf : WF db) (c : Customer)
    (hc : c ∈ db.customers) :
    ∃ msg c', (disable_customer db (.int (c.id : Int))).1 = .okCustomer (some msg) c' ∧
      c'.id = c.id ∧ c'.status = "disabled" ∧ c'.updated_at = db.clock ∧
      c.updated_at ≤ c'.updated_at ∧ (c.status = "disabled" → c'.status = c.status) := by
  have hfindc := find?_id_of_mem hwf.1 hc
  have hupd := find?_updateWhere hfindc
    (fun x => ({ x with status := "disabled", updated_at := db.clock } : Customer))
    (fun x => rfl)
  have heq : (disable_customer db (.int (c.id : Int))).1
      = .okCustomer
          (some ("Customer " ++ valToString (.int (c.id : Int)) ++ " has been disabled"))
          ({ c with status := "disabled", updated_at := db.clock } : Customer) := by
    simp only [disable_customer, hfindc]
    simp only [hupd]
  exact ⟨_, _, heq, rfl, rfl, rfl, le_of_lt (hwf.2 c hc).2.2.1, fun h => by rw [h]⟩

/-- C7 witness: disabling the already-disabled seeded record 4 (David
Brown) succeeds, keeps status disabled, and refreshes updated_at. -/
theorem C7_disable_idempotent_witness :
    ∃ msg c', (disable_customer initialDB
        (.int ((sampleRow 4 "David Brown" "david.brown@email.com" "+1-555-0104" "disabled").id
          : Int))).1
      = .okCustomer (some msg) c' ∧
      c'.id = (sampleRow 4 "David Brown" "david.brown@email.com" "+1-555-0104" "disabled").id ∧
      c'.status = "disabled" ∧ c'.updated_at = initialDB.clock ∧
      (sampleRow 4 "David Brown" "david.brown@email.com" "+1-555-0104" "disabled").updated_at
        ≤ c'.updated_at ∧
      ((sampleRow 4 "David Brown" "david.brown@email.com" "+1-555-0104" "disabled").status
          = "disabled" →
        c'.status
          = (sampleRow 4 "David Brown" "david.brown@email.com" "+1-555-0104" "disabled").status) :=
  C7_disable_idempotent initialDB (by decide)
    (sampleRow 4 "David Brown" "david.brown@email.com" "+1-555-0104" "disabled") (by decide)

/-- C5: every domain-validation fault — a truthy invalid status filter, a
blank name on add, an update supplying no fields, and a nonexistent record
id on get/update/disable/activate — comes back from the gateway as a
successful protocol response whose payload is the store's success:false
error, never as a protocol-level error envelope. -/
theorem C5_domain_faults_are_results (db : DB) (idv : Val) :
    (∀ s : String, s ≠ "" → s ≠ "active" → s ≠ "disabled" →
      ∃ e, (process_mcp_message db (mkCall idv "list_customers" [("status", .str s)])).1
        = .result idv (.toolOutput (.err e))) ∧
    (∀ s : String, pyStrip s = "" →
      ∃ e, (process_mcp_message db (mkCall idv "add_customer" [("name", .str s)])).1
        = .result idv (.toolOutput (.err e))) ∧
    (∀ n : Int, (∀ c ∈ db.customers, ¬ ((c.id : Int) = n)) →
      (∃ e, (process_mcp_message db (mkCall idv "get_customer" [("customer_id", .int n)])).1
        = .result idv (.toolOutput (.err e))) ∧
      (∃ e, (process_mcp_message db
          (mkCall idv "update_customer" [("customer_id", .int n), ("name", .str "X")])).1
        = .result idv (.toolOutput (.err e))) ∧
      (∃ e, (process_mcp_message db
          (mkCall idv "disable_customer" [("customer_id", .int n)])).1
        = .result idv (.toolOutput (.err e))) ∧
      (∃ e, (process_mcp_message db
          (mkCall idv "activate_customer" [("customer_id", .int n)])).1
        = .result idv (.toolOutput (.err e)))) ∧
    (∀ c ∈ db.customers,
      ∃ e, (process_mcp_message db
          (mkCall idv "update_customer" [("customer_id", .int (c.id : Int))])).1
        = .result idv (.toolOutput (.err e))) ∧
    (∀ e, (StoreResult.err e).success = false) := by
  have hmiss : ∀ n : Int, (∀ c ∈ db.customers, ¬ ((c.id : Int) = n)) →
      db.customers.find? (fun x => valMatchesId (.int n) x.id) = Option.none := by
    intro n hn
    rw [List.find?_eq_none]
    intro x hx
    simp only [valMatchesId, beq_iff_eq]
    intro h
    exact hn x hx h.symm
  refine ⟨?_, ?_, ?_, ?_, fun e => rfl⟩
  · intro s h1 h2 h3
    have h4 : ¬ (s = "active" ∨ s = "disabled") := by
      rintro (rfl | rfl)
      · exact h2 rfl
      · exact h3 rfl
    refine ⟨"Status must be \"active\" or \"disabled\"", ?_⟩
    rw [process_call db idv "list_customers" [("status", .str s)] (by decide) rfl]
    simp [runTool, argVal, List.lookup, list_customers, h1, h4]
  · intro s hps
    refine ⟨"Customer name is required", ?_⟩
    rw [process_call db idv "add_customer" [("name", .str s)] (by decide) rfl]
    simp [runTool, argVal, List.lookup, add_customer, hps]
  · intro n hn
    have hfind := hmiss n hn
    refine ⟨⟨"Customer with ID " ++ valToString (.int n) ++ " not found", ?_⟩,
      ⟨"Customer with ID " ++ valToString (.int n) ++ " not found", ?_⟩,
      ⟨"Customer with ID " ++ valToString (.int n) ++ " not found", ?_⟩,
      ⟨"Customer with ID " ++ valToString (.int n) ++ " not found", ?_⟩⟩
    · rw [process_call db idv "get_customer" [("customer_id", .int n)] (by decide) rfl]
      simp [runTool, argVal, List.lookup, get_customer, hfind]
    · rw [process_call db idv "update_customer" [("customer_id", .int n), ("name", .str "X")]
        (by decide) rfl]
      simp [runTool, argVal, List.lookup, update_customer, hfind]
    · rw [process_call db idv "disable_customer" [("customer_id", .int n)] (by decide) rfl]
      simp [runTool, argVal, List.lookup, disable_customer, hfind]
    · rw [process_call db idv "activate_customer" [("customer_id", .int n)] (by decide) rfl]
      simp [runTool, argVal, List.lookup, activate_customer, hfind]
  · intro c hc
    cases hfind : db.customers.find? (fun x => valMatchesId (.int (c.id : Int)) x.id) with
    | none =>
        exact absurd (by simp [valMatchesId] : valMatchesId (.int (c.id : Int)) c.id = true)
          (List.find?_eq_none.mp hfind c hc)
    | some x =>
        refine ⟨"No fields to update", ?_⟩
        rw [process_call db idv "update_customer" [("customer_id", .int (c.id : Int))]
          (by decide) rfl]
        simp [runTool, argVal, List.lookup, update_customer, hfind, stripName]

/-- C5 witness: the spec's own unknown-id test (get_customer 999999) and a
blank-name add, both on the seeded store, both yielding success envelopes
with domain failures. -/
theorem C5_domain_faults_are_results_witness :
    (∃ e, (process_mcp_message initialDB (mkCall (.int 9) "get_customer"
        [("customer_id", .int 999999)])).1 = .result (.int 9) (.toolOutput (.err e))) ∧
    (∃ e, (process_mcp_message initialDB (mkCall (.int 9) "add_customer"
        [("name", .str "   ")])).1 = .result (.int 9) (.toolOutput (.err e))) :=
  ⟨((C5_domain_faults_are_results initialDB (.int 9)).2.2.1 999999 (by decide)).1,
   (C5_domain_faults_are_results initialDB (.int 9)).2.1 "   " (by decide)⟩

end SimpleMcp
